import Mathlib

/-!
Shallow embedding of the Weather-App core (weatherapp/services.py,
weatherapp/enhanced_geolocation_service.py, weatherapp/views.py).

Python floats are modelled as rationals (every IEEE float is a rational);
the trigonometric distance utility is modelled over the reals.  Python
dicts with a fixed field set are modelled as structures; dict fields that
may be absent are modelled as Option.  HTTP calls are modelled by passing
the outcome of the call (body, HTTP error status, timeout, transport
error, unparsable body) as an explicit argument.
-/

/-- Python str.lower (ASCII semantics). -/
def pyLower (s : String) : String := String.mk (s.data.map Char.toLower)

/-- Python str.upper (ASCII semantics). -/
def pyUpper (s : String) : String := String.mk (s.data.map Char.toUpper)

/-- Python str.strip with no argument: remove leading and trailing
whitespace. -/
def pyStrip (s : String) : String :=
  String.mk ((s.data.dropWhile Char.isWhitespace).reverse.dropWhile Char.isWhitespace).reverse

/-- One step of Python str.title: a letter is uppercased when the previous
character is not a letter, lowercased otherwise. -/
def titleChar (prevAlpha : Bool) (c : Char) : Char :=
  if prevAlpha then c.toLower else c.toUpper

/-- Python str.title (ASCII semantics). -/
def pyTitle (s : String) : String :=
  String.mk (s.data.foldl (fun st c => (c.isAlpha, st.2 ++ [titleChar st.1 c])) (false, [])).2

/-- Python round(x, 1): round to one decimal place (ties modelled as
round-half-up; the source values never sit on a tie). -/
def round1 (x : ℚ) : ℚ := (round (x * 10) : ℤ) / 10

/-- Python round(x, 1) over the reals, for the distance pipeline. -/
noncomputable def round1R (x : ℝ) : ℝ := ((round (x * 10) : ℤ) : ℝ) / 10

/-- Calendar date of a Unix timestamp, as used by
datetime.fromtimestamp(dt).date(): the day index of the timestamp
(the fixed local-timezone offset is elided; the map stays monotone and
groups timestamps of one day together). -/
def dateOf (dt : ℕ) : ℕ := dt / 86400

/-- Outcome of one HTTP request made with the requests library:
the parsed body on 2xx, an HTTPError with status from raise_for_status,
a Timeout, a ConnectionError-like RequestException, or a body that the
subsequent parsing code raises on (e.g. json decode failure). The String
argument carries str(e) of the exception. -/
inductive HttpOutcome (α : Type) where
  | ok (body : α)
  | httpError (status : ℕ) (msg : String)
  | timeout (msg : String)
  | connError (msg : String)
  | malformed (msg : String)
deriving DecidableEq

/-- str(e) of the exception carried by a failing outcome. -/
def outcomeMsg {α : Type} : HttpOutcome α → String
  | .ok _ => ""
  | .httpError _ m => m
  | .timeout m => m
  | .connError m => m
  | .malformed m => m

/-- True exactly on the 2xx (parsed body) outcome. -/
def HttpOutcome.isOk {α : Type} : HttpOutcome α → Bool
  | .ok _ => true
  | _ => false

/-- Body of the current-weather endpoint of the provider, with the fields
services.py consumes; fields read with .get(k, default) are Option. -/
structure RawWeather where
  name : String
  country : String
  temp : ℚ
  feels_like : ℚ
  temp_min : Option ℚ
  temp_max : Option ℚ
  description : String
  icon : String
  humidity : ℤ
  pressure : ℤ
  wind_speed : ℚ
  wind_deg : Option ℤ
  clouds : ℤ
  visibility : Option ℤ
  sunrise : Option ℤ
  sunset : Option ℤ
  timezone : Option ℤ
  dt : ℤ
  lat : ℚ
  lon : ℚ
deriving DecidableEq

/-- The formatted current-weather dict built by
WeatherService._fetch_from_api on success. -/
structure WPayload where
  city : String
  country : String
  temperature : ℚ
  feels_like : ℚ
  temp_min : ℚ
  temp_max : ℚ
  description : String
  icon : String
  humidity : ℤ
  pressure : ℤ
  wind_speed : ℚ
  wind_deg : ℤ
  clouds : ℤ
  visibility : ℤ
  sunrise : ℤ
  sunset : ℤ
  timezone : ℤ
  timestamp : ℤ
  coord_lat : ℚ
  coord_lon : ℚ
deriving DecidableEq

/-- A current-weather response dict: the success shape or the
failure shape carrying the error and details fields. -/
inductive WDict where
  | ok (p : WPayload)
  | err (error : String) (details : Option String)
deriving DecidableEq

/-- WeatherService._fetch_from_api: formats a 2xx body, maps HTTP status
404/401/other and timeout/transport failures to the corresponding error
dicts; an exception raised while parsing the body (not a requests
exception) propagates to the caller, modelled by Except.error.
formatWeather is its normalization step: one-decimal rounding of the
temperature fields, title-cased description, absent optional fields
defaulted to 0. -/
def formatWeather (d : RawWeather) : WPayload :=
  { city := d.name
    country := d.country
    temperature := round1 d.temp
    feels_like := round1 d.feels_like
    temp_min := round1 (d.temp_min.getD 0)
    temp_max := round1 (d.temp_max.getD 0)
    description := pyTitle d.description
    icon := d.icon
    humidity := d.humidity
    pressure := d.pressure
    wind_speed := d.wind_speed
    wind_deg := d.wind_deg.getD 0
    clouds := d.clouds
    visibility := d.visibility.getD 0
    sunrise := d.sunrise.getD 0
    sunset := d.sunset.getD 0
    timezone := d.timezone.getD 0
    timestamp := d.dt
    coord_lat := d.lat
    coord_lon := d.lon }

def fetch_from_api (_city : String) (o : HttpOutcome RawWeather) : Except String WDict :=
  match o with
  | .ok d => .ok (.ok (formatWeather d))
  | .httpError 404 _ => .ok (.err "City not found" (some "Please check the city name and try again"))
  | .httpError 401 _ => .ok (.err "Invalid API key" (some "Please configure a valid API key in .env file"))
  | .httpError s m => .ok (.err ("API error: " ++ toString s) (some m))
  | .timeout _ => .ok (.err "Request timeout" (some "The weather service is taking too long to respond"))
  | .connError m => .ok (.err "Connection error" (some ("Could not connect to weather service: " ++ m)))
  | .malformed m => .error m

/-- A 3-hour forecast item of the forecast endpoint body. -/
structure FItem where
  dt : ℕ
  dt_txt : String
  temp : ℚ
  temp_min : ℚ
  temp_max : ℚ
  description : String
  icon : String
  humidity : ℤ
  wind_speed : ℚ
  clouds : ℤ
deriving DecidableEq

/-- Body of the forecast endpoint of the provider. -/
structure FBody where
  city_name : String
  city_country : String
  list : List FItem
deriving DecidableEq

/-- One daily entry of the processed forecast (the date field holds the raw
item timestamp, as in the source). -/
structure FEntry where
  date : ℕ
  date_text : String
  temperature : ℚ
  temp_min : ℚ
  temp_max : ℚ
  description : String
  icon : String
  humidity : ℤ
  wind_speed : ℚ
  clouds : ℤ
deriving DecidableEq

/-- Daily entry built from a forecast item. -/
def mkFEntry (i : FItem) : FEntry :=
  { date := i.dt
    date_text := i.dt_txt
    temperature := round1 i.temp
    temp_min := round1 i.temp_min
    temp_max := round1 i.temp_max
    description := pyTitle i.description
    icon := i.icon
    humidity := i.humidity
    wind_speed := i.wind_speed
    clouds := i.clouds }

/-- The forecast-processing loop of _fetch_forecast_from_api: walk the
items in order, keep the first item of each calendar date, stop as soon
as the collected list reaches the requested day count. -/
def forecastLoop (days : ℤ) : List FItem → List ℕ → List FEntry → List FEntry
  | [], _, acc => acc
  | i :: rest, seen, acc =>
    if dateOf i.dt ∈ seen then forecastLoop days rest seen acc
    else
      let acc2 := acc ++ [mkFEntry i]
      if days ≤ (acc2.length : ℤ) then acc2
      else forecastLoop days rest (dateOf i.dt :: seen) acc2

/-- The processed forecast dict (success shape or error shape). -/
structure FPayload where
  city : String
  country : String
  forecasts : List FEntry
  forecast_count : ℕ
deriving DecidableEq

/-- A forecast response dict. -/
inductive FDict where
  | ok (p : FPayload)
  | err (error : String) (details : Option String)
deriving DecidableEq

/-- WeatherService._fetch_forecast_from_api: one try/except around the
whole call and processing, so every failure — any HTTP status, timeout,
transport error, unparsable body — collapses to the single generic
generic failed-to-fetch-forecast error dict. -/
def fetch_forecast_from_api (_city : String) (days : ℤ) (o : HttpOutcome FBody) : FDict :=
  match o with
  | .ok b =>
      let forecasts := forecastLoop days b.list [] []
      .ok { city := b.city_name
            country := b.city_country
            forecasts := forecasts
            forecast_count := forecasts.length }
  | f => .err "Failed to fetch forecast" (some (outcomeMsg f))

/-- A value held by the shared cache store: a current-weather dict or a
forecast dict. -/
inductive CVal where
  | w (d : WDict)
  | f (d : FDict)
deriving DecidableEq

/-- The cache store: a total map from keys to optionally-present values
(expiry is the concern of the store and is opaque to the core). -/
def Cache : Type := String → Option CVal

/-- cache.set(key, v, ttl). -/
def cacheSet (m : Cache) (key : String) (v : CVal) : Cache :=
  fun k => if k = key then some v else m k

/-- cache.delete(key). -/
def cacheDelete (m : Cache) (key : String) : Cache :=
  fun k => if k = key then none else m k

/-- WeatherService._get_cache_key: "weather_data_" + city.lower().strip(). -/
def weatherKey (city : String) : String :=
  "weather_data_" ++ pyStrip (pyLower city)

/-- Cache key used by get_forecast for a (stripped) city and day count. -/
def forecastKey (city : String) (days : ℤ) : String :=
  "weather_forecast_" ++ pyLower city ++ "_" ++ toString days

/-- A service answer: the response dict plus its from_cache field
(none when the code path never sets the field). -/
structure Answer where
  data : CVal
  fromCache : Option Bool
deriving DecidableEq

/-- WeatherService.get_weather: validate, check the cache, on a miss
fetch and cache only a successful result; city is Option String because
the enhanced view can pass the resolved city as None. -/
def get_weather (cityOpt : Option String) (cache : Cache) (o : HttpOutcome RawWeather) :
    Answer × Cache :=
  match cityOpt with
  | none => (⟨.w (.err "City name is required" (some "Please provide a valid city name")), none⟩, cache)
  | some c0 =>
    if pyStrip c0 = "" then
      (⟨.w (.err "City name is required" (some "Please provide a valid city name")), none⟩, cache)
    else
      let c := pyStrip c0
      let key := weatherKey c
      match cache key with
      | some v => (⟨v, some true⟩, cache)
      | none =>
        match fetch_from_api c o with
        | .error m => (⟨.w (.err "Failed to fetch weather data" (some m)), none⟩, cache)
        | .ok (.ok p) => (⟨.w (.ok p), some false⟩, cacheSet cache key (.w (.ok p)))
        | .ok (.err e d) => (⟨.w (.err e d), some false⟩, cache)

/-- WeatherService.get_forecast: validate, check the cache under the
city-and-days key, on a miss fetch and cache only a successful result;
_fetch_forecast_from_api never raises, so from_cache is always set on
the miss path. -/
def get_forecast (cityOpt : Option String) (days : ℤ) (cache : Cache) (o : HttpOutcome FBody) :
    Answer × Cache :=
  match cityOpt with
  | none => (⟨.f (.err "City name is required" none), none⟩, cache)
  | some c0 =>
    if pyStrip c0 = "" then (⟨.f (.err "City name is required" none), none⟩, cache)
    else
      let c := pyStrip c0
      let key := forecastKey c days
      match cache key with
      | some v => (⟨v, some true⟩, cache)
      | none =>
        match fetch_forecast_from_api c days o with
        | .ok p => (⟨.f (.ok p), some false⟩, cacheSet cache key (.f (.ok p)))
        | .err e d => (⟨.f (.err e d), some false⟩, cache)

/-- WeatherService.clear_cache: a truthy city deletes only the
current-weather key of that city; a falsy city (None or empty) flushes the whole
store via cache.clear(). -/
def clear_cache (cityOpt : Option String) (cache : Cache) : Cache :=
  match cityOpt with
  | some c => if c = "" then fun _ => none else cacheDelete cache (weatherKey c)
  | none => fun _ => none

/-- Python math.radians. -/
noncomputable def radiansOf (x : ℝ) : ℝ := x * Real.pi / 180

open Classical in
/-- Python math.atan2(y, x). -/
noncomputable def atan2 (y x : ℝ) : ℝ :=
  if 0 < x then Real.arctan (y / x)
  else if x < 0 ∧ 0 ≤ y then Real.arctan (y / x) + Real.pi
  else if x < 0 ∧ y < 0 then Real.arctan (y / x) - Real.pi
  else if x = 0 ∧ 0 < y then Real.pi / 2
  else if x = 0 ∧ y < 0 then -(Real.pi / 2)
  else 0

/-- EnhancedGeolocationService._calculate_distance: Haversine great-circle
distance in kilometers with Earth radius 6371 km. -/
noncomputable def calculate_distance (lat1 lon1 lat2 lon2 : ℝ) : ℝ :=
  let l1 := radiansOf lat1
  let o1 := radiansOf lon1
  let l2 := radiansOf lat2
  let o2 := radiansOf lon2
  let dlat := l2 - l1
  let dlon := o2 - o1
  let a := Real.sin (dlat / 2) ^ 2 + Real.cos l1 * Real.cos l2 * Real.sin (dlon / 2) ^ 2
  let c := 2 * atan2 (Real.sqrt a) (Real.sqrt (1 - a))
  6371 * c

/-- A candidate returned by the OpenWeatherMap find endpoint (name and
sys.country read with .get, coordinates assumed well-formed). -/
structure FindCity where
  name : Option String
  country : Option String
  lat : ℚ
  lon : ℚ
deriving DecidableEq

/-- Outcome of a call to the find endpoint: an exception (transport or
parse, carrying the exception text), a body without a truthy list key, or the list
of candidates. -/
inductive FindResp where
  | exc (msg : String)
  | noList
  | ok (cities : List FindCity)
deriving DecidableEq

/-- One entry of a nearby-cities result, distance already rounded to one
decimal. -/
structure NearbyCity where
  city : Option String
  country : Option String
  latitude : ℚ
  longitude : ℚ
  distance : ℝ

/-- A nearby-cities response dict. -/
inductive NearbyResult where
  | ok (cities : List NearbyCity) (count : ℕ) (radius : ℤ)
  | err (error : String) (details : Option String)

open Classical in
/-- The filtering loop of get_nearby_cities: keep candidates within the
radius, storing the one-decimal-rounded distance. -/
noncomputable def collectNearby (lat lon : ℚ) (radius : ℤ) : List FindCity → List NearbyCity
  | [] => []
  | c :: rest =>
    let d := calculate_distance (lat : ℝ) (lon : ℝ) (c.lat : ℝ) (c.lon : ℝ)
    if d ≤ (radius : ℝ) then
      { city := c.name, country := c.country, latitude := c.lat, longitude := c.lon,
        distance := round1R d } :: collectNearby lat lon radius rest
    else collectNearby lat lon radius rest

open Classical in
/-- One insertion step of a stable sort by the stored distance, as done
by the source sorting with the stored distance as key. -/
noncomputable def insertByDist (x : NearbyCity) : List NearbyCity → List NearbyCity
  | [] => [x]
  | y :: ys => if y.distance ≤ x.distance then y :: insertByDist x ys else x :: y :: ys

/-- Stable sort of the nearby-city entries by stored distance. -/
noncomputable def sortByDist (l : List NearbyCity) : List NearbyCity :=
  l.foldl (fun acc x => insertByDist x acc) []

/-- EnhancedGeolocationService.get_nearby_cities: query the find
endpoint for up to 50 candidates, keep those within the radius with
rounded distances, sort ascending by distance; a body without a list key or
any exception yields an error dict. -/
noncomputable def get_nearby_cities (lat lon : ℚ) (radius : ℤ) (resp : FindResp) : NearbyResult :=
  match resp with
  | .exc msg => .err "Failed to find nearby cities" (some msg)
  | .noList => .err "No nearby cities found" none
  | .ok l =>
    let cities := sortByDist (collectNearby lat lon radius l)
    .ok cities cities.length radius

/-- The address object of a Nominatim reverse-geocoding response; every
field is read with .get and may be absent. -/
structure Address where
  suburb : Option String := none
  neighbourhood : Option String := none
  town : Option String := none
  city : Option String := none
  municipality : Option String := none
  county : Option String := none
  state : Option String := none
  country : Option String := none
  country_code : Option String := none
  city_district : Option String := none
deriving DecidableEq

/-- Outcome of the Nominatim call: an exception or timeout, a body
without address data (or falsy), or a body carrying an address object
plus optional top-level lat/lon/display_name. -/
inductive NomResp where
  | fail
  | noAddress
  | ok (address : Address) (lat : Option ℚ) (lon : Option ℚ) (display_name : Option String)
deriving DecidableEq

/-- One candidate of the OpenWeatherMap reverse-geocoding response. -/
structure OwmLoc where
  name : Option String
  state : Option String
  country : Option String
  lat : Option ℚ
  lon : Option ℚ
deriving DecidableEq

/-- Outcome of the OpenWeatherMap reverse-geocoding call: an exception,
or the (possibly empty) candidate array. -/
inductive OwmResp where
  | fail
  | ok (locs : List OwmLoc)
deriving DecidableEq

/-- Python `a or b` on two optionally-present strings: a missing or
empty string is falsy. -/
def pyStrOr (a b : Option String) : Option String :=
  match a with
  | some s => if s = "" then b else some s
  | none => b

/-- The location dict assembled by the geolocation strategies; fields a
strategy does not produce stay none. -/
structure LocData where
  city : Option String
  suburb : Option String := none
  town : Option String := none
  city_district : Option String := none
  state : Option String := none
  country : Option String := none
  country_code : Option String := none
  latitude : Option ℚ := none
  longitude : Option ℚ := none
  display_name : Option String := none
  distance : Option ℝ := none
  source : String
  accuracy : String

/-- Result of one geolocation strategy: a success dict or the bare
bare no-success dict. -/
inductive StratResult where
  | ok (d : LocData)
  | fail

/-- EnhancedGeolocationService._get_location_from_nominatim: on a body
with address data, pick the most specific field by the priority
suburb > neighbourhood > town > city > municipality > county > state and
tag the result high-accuracy OpenStreetMap; every failure (exception,
timeout, missing address) is the bare failure dict. -/
def location_from_nominatim (latitude longitude : ℚ) (r : NomResp) : StratResult :=
  match r with
  | .fail => .fail
  | .noAddress => .fail
  | .ok a lat lon dn =>
    .ok { city := pyStrOr a.suburb (pyStrOr a.neighbourhood (pyStrOr a.town (pyStrOr a.city
            (pyStrOr a.municipality (pyStrOr a.county a.state)))))
          suburb := some (a.suburb.getD "")
          town := some (a.town.getD "")
          city_district := some (a.city_district.getD "")
          state := some (a.state.getD "")
          country := some (a.country.getD "")
          country_code := some (pyUpper (a.country_code.getD ""))
          latitude := some (lat.getD latitude)
          longitude := some (lon.getD longitude)
          display_name := some (dn.getD "")
          source := "OpenStreetMap"
          accuracy := "high" }

/-- EnhancedGeolocationService._get_location_from_openweather: take the
first candidate of a non-empty response and tag it medium-accuracy
OpenWeatherMap; an exception or an empty array is a failure. -/
def location_from_openweather (r : OwmResp) : StratResult :=
  match r with
  | .fail => .fail
  | .ok [] => .fail
  | .ok (l :: _) =>
    .ok { city := l.name
          state := some (l.state.getD "")
          country := l.country
          country_code := l.country
          latitude := l.lat
          longitude := l.lon
          source := "OpenWeatherMap"
          accuracy := "medium" }

/-- EnhancedGeolocationService._find_nearest_weather_station: take the
first candidate of a non-empty find response, attach its distance from
the query point, tag it medium-accuracy; an exception, a body without
a body
without a list key or an empty list is a failure. -/
noncomputable def find_nearest_weather_station (lat lon : ℚ) (r : FindResp) : StratResult :=
  match r with
  | .exc _ => .fail
  | .noList => .fail
  | .ok [] => .fail
  | .ok (c :: _) =>
    .ok { city := c.name
          country := c.country
          latitude := some c.lat
          longitude := some c.lon
          distance := some (calculate_distance (lat : ℝ) (lon : ℝ) (c.lat : ℝ) (c.lon : ℝ))
          source := "Weather Stations"
          accuracy := "medium" }

/-- A resolver result: a location dict or the aggregate failure dict. -/
inductive LocResult where
  | ok (d : LocData)
  | err (error : String) (details : Option String)

/-- EnhancedGeolocationService.get_precise_location: try Nominatim, then
OpenWeatherMap reverse geocoding, then the nearest weather station, first
success winning; when all three fail, return the aggregate error. -/
noncomputable def get_precise_location (latitude longitude : ℚ)
    (r1 : NomResp) (r2 : OwmResp) (r3 : FindResp) : LocResult :=
  match location_from_nominatim latitude longitude r1 with
  | .ok d => .ok d
  | .fail =>
    match location_from_openweather r2 with
    | .ok d => .ok d
    | .fail =>
      match find_nearest_weather_station latitude longitude r3 with
      | .ok d => .ok d
      | .fail => .err "Could not determine location" (some "Unable to find city/town for these coordinates")

/-- Truthiness of the success field of a cached or fresh response dict. -/
def cvalSuccess : CVal → Bool
  | .w (.ok _) => true
  | .f (.ok _) => true
  | _ => false

/-- The days query parameter of the forecast endpoint as received:
absent (the default 5 applies), unparsable by int(), or an integer. -/
inductive DaysParam where
  | missing
  | unparsable
  | val (n : ℤ)
deriving DecidableEq

/-- The day count used by views.get_forecast after its boundary check:
missing or unparsable input and any value outside [1,5] become 5. -/
def effectiveDays : DaysParam → ℤ
  | .missing => 5
  | .unparsable => 5
  | .val n => if n < 1 ∨ 5 < n then 5 else n

/-- A coordinate query parameter as received: absent (float(0) = 0.0
applies), a string float() raises on, or a parsed number. -/
inductive CoordParam where
  | missing
  | bad
  | val (q : ℚ)
deriving DecidableEq

/-- The numeric value of a parseable coordinate parameter. -/
def coordVal : CoordParam → ℚ
  | .missing => 0
  | .bad => 0
  | .val q => q

/-- True when float() raises on the parameter. -/
def CoordParam.isBad : CoordParam → Bool
  | .bad => true
  | _ => false

/-- The provider responses the enhanced coordinates view may consume in
one invocation, plus the cache state it reads. -/
structure EnhEnv where
  geo1 : NomResp
  geo2 : OwmResp
  geo3 : FindResp
  cache : Cache
  wfetch : HttpOutcome RawWeather
  nearby30 : FindResp
  nearby50 : FindResp

/-- The JSON response shapes of views.get_weather_by_coordinates_enhanced. -/
inductive EnhViewResult where
  | invalidCoords
  | missingCoords
  | locationFailed (error : String) (details : Option String)
  | weatherOk (a : Answer) (loc : LocData) (lat lon : ℚ) (nearby : Option (List NearbyCity))
  | suggestions (error : String) (loc : LocData) (nearby : List NearbyCity)
      (suggestion : Option String)
  | weatherFailed (a : Answer)

/-- views.get_weather_by_coordinates_enhanced: parse both coordinates
(unparsable input is the invalid-coordinates error), reject when either
parsed coordinate is falsy (zero), resolve the location, fetch weather
for the resolved city, and on missing weather offer nearby alternatives
within 50 km; with show_nearby set, a successful response carries up to
5 nearby cities within 30 km. -/
noncomputable def weather_by_coordinates_enhanced (latP lonP : CoordParam)
    (showNearby : Bool) (env : EnhEnv) : EnhViewResult :=
  if latP.isBad || lonP.isBad then .invalidCoords
  else
    let latitude := coordVal latP
    let longitude := coordVal lonP
    if latitude = 0 ∨ longitude = 0 then .missingCoords
    else
      match get_precise_location latitude longitude env.geo1 env.geo2 env.geo3 with
      | .err e d => .locationFailed e d
      | .ok loc =>
        let (wa, _) := get_weather loc.city env.cache env.wfetch
        if cvalSuccess wa.data then
          let nearby :=
            if showNearby then
              match get_nearby_cities latitude longitude 30 env.nearby30 with
              | .ok cs _ _ => some (cs.take 5)
              | .err _ _ => none
            else none
          .weatherOk wa loc latitude longitude nearby
        else
          match get_nearby_cities latitude longitude 50 env.nearby50 with
          | .ok (c :: cs) _ _ =>
            .suggestions ("No weather data for " ++ loc.city.getD "None") loc
              ((c :: cs).take 10) (some ("Try: " ++ (c.city.getD "None")))
          | _ => .weatherFailed wa

example : round1 (1534/100) = 153/10 := by
  norm_num [round1, round_eq]

example : forecastLoop 2 [⟨100, "a", 1, 1, 1, "d", "i", 1, 1, 1⟩,
    ⟨90000, "b", 1, 1, 1, "d", "i", 1, 1, 1⟩,
    ⟨180000, "c", 1, 1, 1, "d", "i", 1, 1, 1⟩] [] [] =
    [mkFEntry ⟨100, "a", 1, 1, 1, "d", "i", 1, 1, 1⟩,
     mkFEntry ⟨90000, "b", 1, 1, 1, "d", "i", 1, 1, 1⟩] := by
  simp [forecastLoop, dateOf]

/-- Any non-2xx outcome of the current-weather call yields either an
error dict or a propagating exception, never a success dict. -/
lemma fetch_from_api_not_ok (c : String) (o : HttpOutcome RawWeather)
    (h : o.isOk = false) :
    (∃ e d, fetch_from_api c o = .ok (.err e d)) ∨ (∃ m, fetch_from_api c o = .error m) := by
  cases o with
  | ok _ => simp [HttpOutcome.isOk] at h
  | httpError s m =>
    left
    unfold fetch_from_api
    split
    · simp_all [HttpOutcome.isOk]
    · exact ⟨_, _, rfl⟩
    · exact ⟨_, _, rfl⟩
    · exact ⟨_, _, rfl⟩
    · exact ⟨_, _, rfl⟩
    · exact ⟨_, _, rfl⟩
    · simp_all
  | timeout m => exact Or.inl ⟨_, _, rfl⟩
  | connError m => exact Or.inl ⟨_, _, rfl⟩
  | malformed m => exact Or.inr ⟨m, rfl⟩

/-- C1 (counterexample): a provider HTTP 404 on the forecast call is
mapped to the generic failed-to-fetch error, not to the City-not-found
error that the current-weather call produces for the same outcome, so
the forecast does not apply the same error-mapping rules. -/
theorem c1_counterexample :
    fetch_forecast_from_api "Nonexistentville" 5 (.httpError 404 "404 Client Error") =
      .err "Failed to fetch forecast" (some "404 Client Error") ∧
    fetch_from_api "Nonexistentville" (.httpError 404 "404 Client Error") =
      .ok (.err "City not found" (some "Please check the city name and try again")) ∧
    ("Failed to fetch forecast" : String) ≠ "City not found" := by
  exact ⟨rfl, rfl, by decide⟩

/-- C1 (amended): the forecast fetch maps every failing provider
outcome — any HTTP error status including 404 and 401, a timeout, a
transport failure, an unparsable body — to the single generic
failed-to-fetch-forecast error carrying the exception text; only the
current-weather fetch has the status-specific mapping. -/
theorem c1_forecast_error_mapping (city : String) (days : ℤ) (o : HttpOutcome FBody)
    (h : o.isOk = false) :
    fetch_forecast_from_api city days o = .err "Failed to fetch forecast" (some (outcomeMsg o)) := by
  cases o with
  | ok _ => simp [HttpOutcome.isOk] at h
  | httpError s m => rfl
  | timeout m => rfl
  | connError m => rfl
  | malformed m => rfl

/-- C1 witness: the amended mapping at a concrete 404 outcome. -/
theorem c1_forecast_error_mapping_witness :
    (HttpOutcome.isOk (α := FBody) (.httpError 404 "boom") = false) ∧
    fetch_forecast_from_api "London" 3 (.httpError 404 "boom") =
      .err "Failed to fetch forecast" (some (outcomeMsg (α := FBody) (.httpError 404 "boom"))) :=
  ⟨rfl, c1_forecast_error_mapping "London" 3 (.httpError 404 "boom") rfl⟩

/-- C4: on every failing provider outcome, get_weather leaves the cache
store unchanged — only a successful fetch is ever written back. -/
theorem c4_failures_never_cached (cityOpt : Option String) (cache : Cache)
    (o : HttpOutcome RawWeather) (h : o.isOk = false) :
    (get_weather cityOpt cache o).2 = cache := by
  cases cityOpt with
  | none => rfl
  | some c0 =>
    unfold get_weather
    by_cases ht : pyStrip c0 = ""
    · simp [ht]
    · simp only [if_neg ht]
      cases hc : cache (weatherKey (pyStrip c0)) with
      | some v => rfl
      | none =>
        rcases fetch_from_api_not_ok (pyStrip c0) o h with ⟨e, d, hf⟩ | ⟨m, hf⟩ <;> simp [hf]

/-- C4 witness: a 404 lookup against an empty cache writes nothing. -/
theorem c4_failures_never_cached_witness :
    (HttpOutcome.isOk (α := RawWeather) (.httpError 404 "not found") = false) ∧
    (get_weather (some "Nonexistentville") (fun _ => none)
      (.httpError 404 "not found")).2 = fun _ => none :=
  ⟨rfl, c4_failures_never_cached (some "Nonexistentville") (fun _ => none)
    (.httpError 404 "not found") rfl⟩

/-- A forecast cache key never collides with a current-weather cache key:
the two namespaces differ at character index 8. -/
lemma forecast_key_ne_weather_key (s t : String) :
    ("weather_forecast_" ++ s) ≠ ("weather_data_" ++ t) := by
  intro h
  have hd := congrArg (fun x => x.data[8]?) h
  simp only [String.data_append] at hd
  rw [List.getElem?_append_left (by decide), List.getElem?_append_left (by decide)] at hd
  simp at hd

/-- C8: with a (truthy) city given, clear_cache removes exactly that
city-specific current-weather key, leaves every other key — in particular
every forecast key of the same city — unchanged; with no city it flushes
every key of the store. -/
theorem c8_clear_cache_scope (city : String) (m : Cache) (h : city ≠ "") :
    clear_cache (some city) m (weatherKey city) = none ∧
    (∀ k, k ≠ weatherKey city → clear_cache (some city) m k = m k) ∧
    (∀ days : ℤ, clear_cache (some city) m (forecastKey (pyStrip city) days) =
      m (forecastKey (pyStrip city) days)) ∧
    (∀ k, clear_cache none m k = none) := by
  refine ⟨?_, ?_, ?_, fun _ => rfl⟩
  · simp [clear_cache, h, cacheDelete]
  · intro k hk
    simp [clear_cache, h, cacheDelete, hk]
  · intro days
    have hne : forecastKey (pyStrip city) days ≠ weatherKey city := by
      unfold forecastKey weatherKey
      rw [String.append_assoc, String.append_assoc]
      exact forecast_key_ne_weather_key _ _
    simp [clear_cache, h, cacheDelete, hne]

/-- C8 witness: clearing the Paris current-weather key at a concrete
store, with a concrete other key and a concrete forecast day count. -/
theorem c8_clear_cache_scope_witness :
    ("Paris" : String) ≠ "" ∧
    (clear_cache (some "Paris") (fun _ => none) (weatherKey "Paris") = none ∧
     (∀ k, k ≠ weatherKey "Paris" →
        clear_cache (some "Paris") (fun _ => none) k = (fun (_ : String) => none) k) ∧
     (∀ days : ℤ, clear_cache (some "Paris") (fun _ => none) (forecastKey (pyStrip "Paris") days) =
        (fun (_ : String) => none) (forecastKey (pyStrip "Paris") days)) ∧
     (∀ k, clear_cache none (fun _ => none) k = none)) :=
  ⟨by decide, c8_clear_cache_scope "Paris" (fun _ => none) (by decide)⟩

/-- C10 (implicit behaviour): the first geolocation strategy reports
success whenever the response carries an address object, even one with
none of the priority fields, so the resolver can return a successful
location whose city is absent — and it does not fall through to the
second strategy in that case. -/
theorem c10_empty_address_success (lat lon : ℚ) (r2 : OwmResp) (r3 : FindResp) :
    ∃ d : LocData,
      location_from_nominatim lat lon (.ok {} none none none) = .ok d ∧
      d.city = none ∧
      get_precise_location lat lon (.ok {} none none none) r2 r3 = .ok d :=
  ⟨_, rfl, rfl, rfl⟩

/-- The square of the sine of a half-difference is symmetric in the two
endpoints. -/
lemma sin_half_sq_symm (u v : ℝ) :
    Real.sin ((u - v) / 2) ^ 2 = Real.sin ((v - u) / 2) ^ 2 := by
  rw [show (u - v) / 2 = -((v - u) / 2) by ring, Real.sin_neg, neg_sq]

/-- C9: the distance utility (Haversine with Earth radius 6371 km)
vanishes on identical points and is symmetric in its two coordinate
pairs. -/
theorem c9_distance_utility :
    (∀ x y : ℝ, calculate_distance x y x y = 0) ∧
    (∀ a b c d : ℝ, calculate_distance a b c d = calculate_distance c d a b) := by
  constructor
  · intro x y
    simp [calculate_distance, atan2]
  · intro a b c d
    simp only [calculate_distance]
    rw [sin_half_sq_symm, sin_half_sq_symm (radiansOf d), mul_comm (Real.cos (radiansOf a))]

/-- On a cache miss with a successful provider body, get_weather returns
the formatted payload fresh (from_cache false) and stores it. -/
lemma get_weather_miss_ok (city : String) (cache : Cache) (raw : RawWeather)
    (h1 : pyStrip city ≠ "") (h2 : cache (weatherKey (pyStrip city)) = none) :
    get_weather (some city) cache (.ok raw) =
      (⟨.w (.ok (formatWeather raw)), some false⟩,
       cacheSet cache (weatherKey (pyStrip city)) (.w (.ok (formatWeather raw)))) := by
  simp [get_weather, if_neg h1, h2, fetch_from_api]

/-- A key just written is read back. -/
lemma cacheSet_get (m : Cache) (k : String) (v : CVal) : cacheSet m k v k = some v := by
  simp [cacheSet]

/-- On a cache hit, get_weather returns the cached dict with from_cache
true and leaves the store unchanged. -/
lemma get_weather_hit (city : String) (cache : Cache) (o : HttpOutcome RawWeather) (v : CVal)
    (h1 : pyStrip city ≠ "") (h2 : cache (weatherKey (pyStrip city)) = some v) :
    get_weather (some city) cache o = (⟨v, some true⟩, cache) := by
  simp [get_weather, if_neg h1, h2]

/-- C3: a first current-weather call on a cache miss with a successful
fetch returns from_cache false; a second call within the TTL window
(same store state) returns from_cache true with the identical payload
dict, whose temperature is the one-decimal-rounded provider value. -/
theorem c3_cache_roundtrip (city : String) (cache : Cache) (raw : RawWeather)
    (o2 : HttpOutcome RawWeather)
    (h1 : pyStrip city ≠ "") (h2 : cache (weatherKey (pyStrip city)) = none) :
    (get_weather (some city) cache (.ok raw)).1.fromCache = some false ∧
    (get_weather (some city) ((get_weather (some city) cache (.ok raw)).2) o2).1.fromCache =
      some true ∧
    (get_weather (some city) ((get_weather (some city) cache (.ok raw)).2) o2).1.data =
      (get_weather (some city) cache (.ok raw)).1.data ∧
    (∃ p : WPayload, (get_weather (some city) cache (.ok raw)).1.data = .w (.ok p) ∧
      p.temperature = round1 raw.temp) := by
  have e1 := get_weather_miss_ok city cache raw h1 h2
  have e2 : (get_weather (some city) cache (.ok raw)).2 (weatherKey (pyStrip city)) =
      some (.w (.ok (formatWeather raw))) := by
    rw [e1]; exact cacheSet_get ..
  have e3 := get_weather_hit city ((get_weather (some city) cache (.ok raw)).2) o2
    (.w (.ok (formatWeather raw))) h1 e2
  rw [e1] at e3 ⊢
  rw [e3]
  exact ⟨rfl, rfl, rfl, ⟨formatWeather raw, rfl, rfl⟩⟩

/-- C3 witness: the London scenario — empty cache, provider temperature
15.34 °C. -/
theorem c3_cache_roundtrip_witness :
    (pyStrip "London" ≠ "" ∧ (fun (_ : String) => (none : Option CVal)) (weatherKey (pyStrip "London")) = none) ∧
    ((get_weather (some "London") (fun _ => none)
        (.ok ⟨"London", "GB", 1534/100, 15, none, none, "light rain", "10d",
          80, 1012, 5, none, 20, none, none, none, none, 1700000000, 515/10, -1/8⟩)).1.fromCache =
      some false ∧
     (get_weather (some "London")
        ((get_weather (some "London") (fun _ => none)
          (.ok ⟨"London", "GB", 1534/100, 15, none, none, "light rain", "10d",
            80, 1012, 5, none, 20, none, none, none, none, 1700000000, 515/10, -1/8⟩)).2)
        (.timeout "")).1.fromCache = some true ∧
     (get_weather (some "London")
        ((get_weather (some "London") (fun _ => none)
          (.ok ⟨"London", "GB", 1534/100, 15, none, none, "light rain", "10d",
            80, 1012, 5, none, 20, none, none, none, none, 1700000000, 515/10, -1/8⟩)).2)
        (.timeout "")).1.data =
      (get_weather (some "London") (fun _ => none)
        (.ok ⟨"London", "GB", 1534/100, 15, none, none, "light rain", "10d",
          80, 1012, 5, none, 20, none, none, none, none, 1700000000, 515/10, -1/8⟩)).1.data ∧
     (∃ p : WPayload, (get_weather (some "London") (fun _ => none)
        (.ok ⟨"London", "GB", 1534/100, 15, none, none, "light rain", "10d",
          80, 1012, 5, none, 20, none, none, none, none, 1700000000, 515/10, -1/8⟩)).1.data =
        .w (.ok p) ∧ p.temperature = round1 (1534/100))) :=
  ⟨⟨by decide, rfl⟩,
   c3_cache_roundtrip "London" (fun _ => none)
    ⟨"London", "GB", 1534/100, 15, none, none, "light rain", "10d",
      80, 1012, 5, none, 20, none, none, none, none, 1700000000, 515/10, -1/8⟩
    (.timeout "") (by decide) rfl⟩

/-- C6: the resolver tries its three strategies in order with first
success winning — a Nominatim body with address data wins with the
priority-ordered most-specific field and a high-accuracy OpenStreetMap
tag; if strategy 1 fails and strategy 2 returns candidates, the result is
the medium-accuracy OpenWeatherMap dict with no detailed-provider
(suburb/town/city_district/display_name) fields; if all three strategies
fail, the resolver returns the aggregate location-not-found error. -/
theorem c6_resolver_strategy_chain :
    (∀ (lat lon : ℚ) (a : Address) (la lo : Option ℚ) (dn : Option String)
       (r2 : OwmResp) (r3 : FindResp),
      ∃ d : LocData,
        get_precise_location lat lon (.ok a la lo dn) r2 r3 = .ok d ∧
        d.city = pyStrOr a.suburb (pyStrOr a.neighbourhood (pyStrOr a.town (pyStrOr a.city
          (pyStrOr a.municipality (pyStrOr a.county a.state))))) ∧
        d.accuracy = "high" ∧ d.source = "OpenStreetMap") ∧
    (∀ (lat lon : ℚ) (r1 : NomResp) (l : OwmLoc) (ls : List OwmLoc) (r3 : FindResp),
      location_from_nominatim lat lon r1 = .fail →
      ∃ d : LocData,
        get_precise_location lat lon r1 (.ok (l :: ls)) r3 = .ok d ∧
        d.accuracy = "medium" ∧ d.source = "OpenWeatherMap" ∧
        d.suburb = none ∧ d.town = none ∧ d.city_district = none ∧ d.display_name = none) ∧
    (∀ (lat lon : ℚ) (r1 : NomResp) (r2 : OwmResp) (r3 : FindResp),
      location_from_nominatim lat lon r1 = .fail →
      location_from_openweather r2 = .fail →
      find_nearest_weather_station lat lon r3 = .fail →
      get_precise_location lat lon r1 r2 r3 =
        .err "Could not determine location" (some "Unable to find city/town for these coordinates")) := by
  refine ⟨?_, ?_, ?_⟩
  · intro lat lon a la lo dn r2 r3
    exact ⟨_, rfl, rfl, rfl, rfl⟩
  · intro lat lon r1 l ls r3 h1
    unfold get_precise_location
    rw [h1]
    exact ⟨_, rfl, rfl, rfl, rfl, rfl, rfl, rfl⟩
  · intro lat lon r1 r2 r3 h1 h2 h3
    unfold get_precise_location
    rw [h1, h2, h3]

/-- C6 witness: the fallthrough to strategy 2 and the all-fail error at
concrete responses. -/
theorem c6_resolver_strategy_chain_witness :
    (∃ d : LocData,
      get_precise_location 1 2 .fail (.ok [⟨some "Leeds", none, some "GB", none, none⟩]) .noList =
        .ok d ∧
      d.accuracy = "medium" ∧ d.source = "OpenWeatherMap" ∧
      d.suburb = none ∧ d.town = none ∧ d.city_district = none ∧ d.display_name = none) ∧
    get_precise_location 1 2 .fail (.ok []) .noList =
      .err "Could not determine location" (some "Unable to find city/town for these coordinates") :=
  ⟨c6_resolver_strategy_chain.2.1 1 2 .fail ⟨some "Leeds", none, some "GB", none, none⟩ [] .noList rfl,
   c6_resolver_strategy_chain.2.2 1 2 .fail (.ok []) .noList rfl rfl rfl⟩

/-- The calendar-date map is monotone in the timestamp. -/
lemma dateOf_mono {a b : ℕ} (h : a ≤ b) : dateOf a ≤ dateOf b :=
  Nat.div_le_div_right h

/-- The forecast loop never grows its accumulator past the requested day
count. -/
lemma forecastLoop_length (days : ℤ) (items : List FItem) :
    ∀ (seen : List ℕ) (acc : List FEntry), (acc.length : ℤ) < days →
    ((forecastLoop days items seen acc).length : ℤ) ≤ days := by
  induction items with
  | nil =>
    intro seen acc h
    simpa [forecastLoop] using le_of_lt h
  | cons i rest ih =>
    intro seen acc h
    simp only [forecastLoop]
    by_cases hm : dateOf i.dt ∈ seen
    · rw [if_pos hm]
      exact ih seen acc h
    · rw [if_neg hm]
      by_cases hl : days ≤ ((acc ++ [mkFEntry i]).length : ℤ)
      · rw [if_pos hl]
        simp only [List.length_append, List.length_cons, List.length_nil]
        push_cast
        omega
      · rw [if_neg hl]
        exact ih _ _ (lt_of_not_le hl)

/-- When the provider items are chronological, the forecast loop keeps
the dates of its output strictly increasing (given the stated
invariants on the seen set and the accumulator). -/
lemma forecastLoop_sorted (days : ℤ) (items : List FItem) :
    ∀ (seen : List ℕ) (acc : List FEntry),
    items.Pairwise (fun a b => a.dt ≤ b.dt) →
    (∀ s ∈ seen, ∀ i ∈ items, s ≤ dateOf i.dt) →
    (∀ e ∈ acc, dateOf e.date ∈ seen) →
    ((acc.map fun e => dateOf e.date).Pairwise (· < ·)) →
    (((forecastLoop days items seen acc).map fun e => dateOf e.date).Pairwise (· < ·)) := by
  induction items with
  | nil =>
    intro seen acc _ _ _ hsorted
    simpa [forecastLoop] using hsorted
  | cons i rest ih =>
    intro seen acc hchron hseen haccseen hsorted
    rw [List.pairwise_cons] at hchron
    obtain ⟨hif, hrest⟩ := hchron
    simp only [forecastLoop]
    by_cases hm : dateOf i.dt ∈ seen
    · rw [if_pos hm]
      exact ih seen acc hrest
        (fun s hs j hj => hseen s hs j (List.mem_cons_of_mem _ hj)) haccseen hsorted
    · rw [if_neg hm]
      have hlt : ∀ e ∈ acc, dateOf e.date < dateOf i.dt := by
        intro e he
        have hmem : dateOf e.date ∈ seen := haccseen e he
        have hle : dateOf e.date ≤ dateOf i.dt := hseen _ hmem i (List.mem_cons_self ..)
        exact lt_of_le_of_ne hle (fun hEq => hm (hEq ▸ hmem))
      have hsorted2 : (((acc ++ [mkFEntry i]).map fun e => dateOf e.date).Pairwise (· < ·)) := by
        rw [List.map_append, List.pairwise_append]
        refine ⟨hsorted, by simp, ?_⟩
        intro x hx y hy
        obtain ⟨e, he, rfl⟩ := List.mem_map.1 hx
        simp only [List.map_cons, List.map_nil, List.mem_singleton] at hy
        subst hy
        exact hlt e he
      by_cases hl : days ≤ ((acc ++ [mkFEntry i]).length : ℤ)
      · rw [if_pos hl]
        exact hsorted2
      · rw [if_neg hl]
        refine ih (dateOf i.dt :: seen) (acc ++ [mkFEntry i]) hrest ?_ ?_ hsorted2
        · intro s hs j hj
          rcases List.mem_cons.1 hs with rfl | hs2
          · exact dateOf_mono (hif j hj)
          · exact hseen s hs2 j (List.mem_cons_of_mem _ hj)
        · intro e he
          rcases List.mem_append.1 he with he1 | he2
          · exact List.mem_cons_of_mem _ (haccseen e he1)
          · simp only [List.mem_singleton] at he2
            subst he2
            exact List.mem_cons_self ..

/-- C5: the forecast day count is clamped to 5 at the view boundary for
unparsable or out-of-range input and always lands in [1,5]; for
chronological provider items, the processed forecast entries have
strictly increasing calendar dates (hence at most one entry per date,
ordered ascending) and there are at most as many entries as the
effective day count. -/
theorem c5_forecast_clamp_and_invariants (p : DaysParam) (items : List FItem)
    (hchron : items.Pairwise (fun a b => a.dt ≤ b.dt)) :
    (1 ≤ effectiveDays p ∧ effectiveDays p ≤ 5) ∧
    (∀ n : ℤ, (n < 1 ∨ 5 < n) → effectiveDays (.val n) = 5) ∧
    effectiveDays .unparsable = 5 ∧
    (((forecastLoop (effectiveDays p) items [] []).map fun e => dateOf e.date).Pairwise (· < ·)) ∧
    ((forecastLoop (effectiveDays p) items [] []).length : ℤ) ≤ effectiveDays p := by
  have hrange : 1 ≤ effectiveDays p ∧ effectiveDays p ≤ 5 := by
    cases p with
    | missing => exact ⟨by norm_num [effectiveDays], by norm_num [effectiveDays]⟩
    | unparsable => exact ⟨by norm_num [effectiveDays], by norm_num [effectiveDays]⟩
    | val n =>
      simp only [effectiveDays]
      by_cases hn : n < 1 ∨ 5 < n
      · rw [if_pos hn]; omega
      · rw [if_neg hn]; omega
  refine ⟨hrange, ?_, rfl, ?_, ?_⟩
  · intro n hn
    simp [effectiveDays, hn]
  · exact forecastLoop_sorted (effectiveDays p) items [] [] hchron
      (by intro s hs; simp at hs) (by intro e he; simp at he) (by simp)
  · exact forecastLoop_length (effectiveDays p) items [] [] (by simpa using hrange.1)

/-- C5 witness: an out-of-range day request over three chronological
items spanning two calendar dates. -/
theorem c5_forecast_clamp_and_invariants_witness :
    ([⟨100, "a", 1, 1, 1, "d", "i", 1, 1, 1⟩,
      ⟨200, "b", 1, 1, 1, "d", "i", 1, 1, 1⟩,
      ⟨90000, "c", 1, 1, 1, "d", "i", 1, 1, 1⟩] :
        List FItem).Pairwise (fun a b => a.dt ≤ b.dt) ∧
    ((1 ≤ effectiveDays (.val 7) ∧ effectiveDays (.val 7) ≤ 5) ∧
     (∀ n : ℤ, (n < 1 ∨ 5 < n) → effectiveDays (.val n) = 5) ∧
     effectiveDays .unparsable = 5 ∧
     (((forecastLoop (effectiveDays (.val 7))
         [⟨100, "a", 1, 1, 1, "d", "i", 1, 1, 1⟩,
          ⟨200, "b", 1, 1, 1, "d", "i", 1, 1, 1⟩,
          ⟨90000, "c", 1, 1, 1, "d", "i", 1, 1, 1⟩] [] []).map
        fun e => dateOf e.date).Pairwise (· < ·)) ∧
     ((forecastLoop (effectiveDays (.val 7))
         [⟨100, "a", 1, 1, 1, "d", "i", 1, 1, 1⟩,
          ⟨200, "b", 1, 1, 1, "d", "i", 1, 1, 1⟩,
          ⟨90000, "c", 1, 1, 1, "d", "i", 1, 1, 1⟩] [] []).length : ℤ) ≤
       effectiveDays (.val 7)) :=
  ⟨by decide,
   c5_forecast_clamp_and_invariants (.val 7)
    [⟨100, "a", 1, 1, 1, "d", "i", 1, 1, 1⟩,
     ⟨200, "b", 1, 1, 1, "d", "i", 1, 1, 1⟩,
     ⟨90000, "c", 1, 1, 1, "d", "i", 1, 1, 1⟩] (by decide)⟩

/-- Rounding to one decimal cannot push a value past an integer bound:
the radius is an integer, so its multiple of ten is floor-fixed. -/
lemma round1R_le_of_le {d : ℝ} {r : ℤ} (h : d ≤ (r : ℝ)) : round1R d ≤ (r : ℝ) := by
  have hZ : round (d * 10) ≤ r * 10 := by
    rw [round_eq]
    calc ⌊d * 10 + 1 / 2⌋ ≤ ⌊(r : ℝ) * 10 + 1 / 2⌋ :=
          Int.floor_le_floor (by linarith)
      _ = r * 10 := by
          rw [show ((r : ℝ) * 10 + 1 / 2) = ((r * 10 : ℤ) : ℝ) + 1 / 2 by push_cast; ring,
            Int.floor_int_add]
          norm_num
  unfold round1R
  rw [div_le_iff₀ (by norm_num)]
  exact_mod_cast hZ

/-- Every entry the filtering loop keeps has (rounded) distance within
the radius. -/
lemma mem_collectNearby {lat lon : ℚ} {radius : ℤ} {e : NearbyCity} :
    ∀ {l : List FindCity}, e ∈ collectNearby lat lon radius l → e.distance ≤ (radius : ℝ) := by
  intro l
  induction l with
  | nil => intro h; simp [collectNearby] at h
  | cons c rest ih =>
    intro h
    simp only [collectNearby] at h
    split at h
    · rcases List.mem_cons.1 h with rfl | h2
      · exact round1R_le_of_le (by assumption)
      · exact ih h2
    · exact ih h

/-- Membership through one insertion step of the stable sort. -/
lemma mem_insertByDist {x a : NearbyCity} :
    ∀ {l : List NearbyCity}, a ∈ insertByDist x l ↔ a = x ∨ a ∈ l := by
  intro l
  induction l with
  | nil => simp [insertByDist]
  | cons y ys ih =>
    simp only [insertByDist]
    split
    · rw [List.mem_cons, ih, List.mem_cons]
      tauto
    · rw [List.mem_cons]

/-- One insertion step preserves sortedness by stored distance. -/
lemma insertByDist_sorted {x : NearbyCity} :
    ∀ {l : List NearbyCity}, l.Pairwise (fun a b => a.distance ≤ b.distance) →
    (insertByDist x l).Pairwise (fun a b => a.distance ≤ b.distance) := by
  intro l
  induction l with
  | nil => intro _; simp [insertByDist]
  | cons y ys ih =>
    intro h
    rw [List.pairwise_cons] at h
    obtain ⟨hy, hys⟩ := h
    simp only [insertByDist]
    split
    · rw [List.pairwise_cons]
      refine ⟨?_, ih hys⟩
      intro z hz
      rcases mem_insertByDist.1 hz with rfl | hz2
      · assumption
      · exact hy z hz2
    · rw [List.pairwise_cons]
      refine ⟨?_, List.pairwise_cons.2 ⟨hy, hys⟩⟩
      intro z hz
      have hxy : x.distance ≤ y.distance := le_of_not_le (by assumption)
      rcases List.mem_cons.1 hz with rfl | hz2
      · exact hxy
      · exact le_trans hxy (hy z hz2)

/-- The fold of insertion steps keeps a sorted accumulator sorted. -/
lemma foldl_insert_sorted :
    ∀ (l acc : List NearbyCity), acc.Pairwise (fun a b => a.distance ≤ b.distance) →
    (l.foldl (fun acc x => insertByDist x acc) acc).Pairwise
      (fun a b => a.distance ≤ b.distance) := by
  intro l
  induction l with
  | nil => intro acc h; simpa using h
  | cons x rest ih => intro acc h; exact ih _ (insertByDist_sorted h)

/-- The stable sort produces a sequence nondecreasing in stored
distance. -/
lemma sortByDist_sorted (l : List NearbyCity) :
    (sortByDist l).Pairwise (fun a b => a.distance ≤ b.distance) :=
  foldl_insert_sorted l [] (by simp)

/-- Membership through the fold of insertion steps. -/
lemma mem_foldl_insert {a : NearbyCity} :
    ∀ (l acc : List NearbyCity),
    (a ∈ l.foldl (fun acc x => insertByDist x acc) acc ↔ a ∈ acc ∨ a ∈ l) := by
  intro l
  induction l with
  | nil => intro acc; simp
  | cons x rest ih =>
    intro acc
    rw [List.foldl_cons, ih, mem_insertByDist, List.mem_cons]
    tauto

/-- The stable sort preserves membership. -/
lemma mem_sortByDist {a : NearbyCity} {l : List NearbyCity} :
    a ∈ sortByDist l ↔ a ∈ l := by
  unfold sortByDist
  rw [mem_foldl_insert]
  simp

/-- C7: a successful nearby-cities lookup returns entries whose rounded
distances all lie within the requested radius, sorted ascending by
distance; zero in-range candidates yield the empty success; the error
dict arises exactly from a transport/parse failure or a body without a
candidate list. -/
theorem c7_nearby_cities_properties (lat lon : ℚ) (radius : ℤ) :
    (∀ l : List FindCity, ∃ cs : List NearbyCity,
       get_nearby_cities lat lon radius (.ok l) = .ok cs cs.length radius ∧
       (∀ e ∈ cs, e.distance ≤ (radius : ℝ)) ∧
       cs.Pairwise (fun a b => a.distance ≤ b.distance)) ∧
    get_nearby_cities lat lon radius (.ok []) = .ok [] 0 radius ∧
    (∀ resp : FindResp,
       (∃ e d, get_nearby_cities lat lon radius resp = .err e d) ↔
       resp = .noList ∨ ∃ m, resp = .exc m) := by
  refine ⟨?_, rfl, ?_⟩
  · intro l
    refine ⟨sortByDist (collectNearby lat lon radius l), rfl, ?_, sortByDist_sorted _⟩
    intro e he
    exact mem_collectNearby (mem_sortByDist.1 he)
  · intro resp
    cases resp with
    | exc m =>
      constructor
      · intro _; exact Or.inr ⟨m, rfl⟩
      · intro _; exact ⟨_, _, rfl⟩
    | noList =>
      constructor
      · intro _; exact Or.inl rfl
      · intro _; exact ⟨_, _, rfl⟩
    | ok l =>
      constructor
      · rintro ⟨e, d, h⟩
        simp [get_nearby_cities] at h
      · rintro (h | ⟨m, h⟩) <;> simp at h

/-- A fixed provider environment (all lookups failing) for evaluating
the enhanced view at concrete coordinates. -/
def quietEnv : EnhEnv :=
  { geo1 := .fail, geo2 := .fail, geo3 := .noList, cache := fun _ => none,
    wfetch := .timeout "", nearby30 := .noList, nearby50 := .noList }

/-- C2 (counterexample): the coordinate pair (0, 45) is not both-zero,
yet the view rejects it with the missing-coordinates error instead of
proceeding to location resolution — the code tests each coordinate for
falsiness separately. -/
theorem c2_counterexample :
    weather_by_coordinates_enhanced (.val 0) (.val 45) false quietEnv = .missingCoords ∧
    ¬((0 : ℚ) = 0 ∧ (45 : ℚ) = 0) := by
  constructor
  · simp [weather_by_coordinates_enhanced, CoordParam.isBad, coordVal]
  · norm_num

/-- C2 (amended): for parseable coordinate parameters the view returns
the missing-coordinates error exactly when latitude or longitude is zero
(an absent parameter parses as zero); the rejection is independent of
every provider response and cache state, so no network call is made. -/
theorem c2_missing_coords_amended (latP lonP : CoordParam) (showNearby : Bool) (env : EnhEnv)
    (hlat : latP.isBad = false) (hlon : lonP.isBad = false) :
    weather_by_coordinates_enhanced latP lonP showNearby env = .missingCoords ↔
      (coordVal latP = 0 ∨ coordVal lonP = 0) := by
  unfold weather_by_coordinates_enhanced
  rw [hlat, hlon]
  simp only [Bool.or_self, Bool.false_eq_true, if_false]
  by_cases hz : coordVal latP = 0 ∨ coordVal lonP = 0
  · simp [hz]
  · rw [if_neg hz]
    constructor
    · intro h
      exfalso
      rcases hres : get_precise_location (coordVal latP) (coordVal lonP)
          env.geo1 env.geo2 env.geo3 with d | ⟨e, dd⟩
      · rw [hres] at h
        dsimp only at h
        by_cases hs : cvalSuccess (get_weather d.city env.cache env.wfetch).1.data = true
        · simp [hs] at h
        · rw [if_neg hs] at h
          rcases hn : get_nearby_cities (coordVal latP) (coordVal lonP) 50 env.nearby50
            with ⟨cs, n, r⟩ | ⟨e2, d2⟩
          · rw [hn] at h
            rcases cs with _ | ⟨c, cs2⟩ <;> simp at h
          · rw [hn] at h
            simp at h
      · rw [hres] at h
        simp at h
    · intro h
      exact absurd h hz

/-- C2 witness: a zero longitude with nonzero latitude is rejected for
every environment instantiated at the concrete quiet one. -/
theorem c2_missing_coords_amended_witness :
    (CoordParam.isBad (.val 3) = false ∧ CoordParam.isBad (.val 0) = false) ∧
    weather_by_coordinates_enhanced (.val 3) (.val 0) false quietEnv = .missingCoords :=
  ⟨⟨rfl, rfl⟩,
   (c2_missing_coords_amended (.val 3) (.val 0) false quietEnv rfl rfl).mpr (Or.inr rfl)⟩

/-- C7 witness: the empty-success case at concrete coordinates. -/
theorem c7_nearby_cities_properties_witness :
    get_nearby_cities 0 1 50 (.ok []) = .ok [] 0 50 :=
  (c7_nearby_cities_properties 0 1 50).2.1

/-- C9 witness: zero self-distance at the origin. -/
theorem c9_distance_utility_witness : calculate_distance 0 0 0 0 = 0 :=
  c9_distance_utility.1 0 0

/-- C10 witness: the empty-address response at concrete coordinates and
failing fallback providers. -/
theorem c10_empty_address_success_witness :
    ∃ d : LocData,
      location_from_nominatim 0 1 (.ok {} none none none) = .ok d ∧
      d.city = none ∧
      get_precise_location 0 1 (.ok {} none none none) .fail .noList = .ok d :=
  c10_empty_address_success 0 1 .fail .noList
